import Mathlib

/- Verification development for the AI.D Core API backend (`main.py`).

The heuristic stop-scroll scorer, the provider gateway and the feature
handlers relevant to the frozen claims are shallowly embedded below.
Python strings are modelled as `String` / `List Char`; machine floats that
only flow into prompt text are modelled as `Int`; the external services
(the HTTP network and Python's `json.loads`) are modelled as explicit
oracle parameters, so every handler is a pure function of its inputs. -/

namespace AidCore

/-- Model of Python `str.lower` restricted to the character set the
repository actually manipulates: ASCII letters plus the Spanish accented
letters appearing in `STRONG_WORDS` and the CTA keyword list. -/
def pyLowerChar (c : Char) : Char :=
  if 'A' ≤ c ∧ c ≤ 'Z' then Char.ofNat (c.toNat + 32)
  else if c = 'Á' then 'á'
  else if c = 'É' then 'é'
  else if c = 'Í' then 'í'
  else if c = 'Ó' then 'ó'
  else if c = 'Ú' then 'ú'
  else if c = 'Ñ' then 'ñ'
  else if c = 'Ü' then 'ü'
  else c

/-- Model of Python `str.strip()`: remove leading and trailing whitespace. -/
def pyStrip (l : List Char) : List Char :=
  ((l.dropWhile Char.isWhitespace).reverse.dropWhile Char.isWhitespace).reverse

/-- Helper for `pyWords`: walk the character list, accumulating the current
word (reversed) and emitting it whenever whitespace is reached. -/
def splitWsAux : List Char → List Char → List (List Char)
  | [], cur => if cur = [] then [] else [cur.reverse]
  | c :: rest, cur =>
    if c.isWhitespace then
      if cur = [] then splitWsAux rest [] else cur.reverse :: splitWsAux rest []
    else
      splitWsAux rest (c :: cur)

/-- Model of Python `str.split()` with no separator: split on runs of
whitespace, discarding empty pieces. -/
def pyWords (l : List Char) : List (List Char) :=
  splitWsAux l []

/-- Embeds `_word_count`: `len([w for w in text.strip().split() if w])`.
`pyWords` already discards empty pieces, matching the `if w` filter. -/
def _word_count (text : List Char) : Nat :=
  (pyWords (pyStrip text)).length

/-- Does `pat` occur at the very front of the second list? -/
def matchesFront : List Char → List Char → Bool
  | [], _ => true
  | _ :: _, [] => false
  | p :: ps, c :: cs => p == c && matchesFront ps cs

/-- Model of Python substring containment `pat in text`. -/
def containsSub (pat : List Char) : List Char → Bool
  | [] => matchesFront pat []
  | c :: cs => matchesFront pat (c :: cs) || containsSub pat cs

/-- Embeds the `STRONG_WORDS` constant of `main.py` verbatim. -/
def STRONG_WORDS : List (List Char) :=
  [ "error".data
  , "errores".data
  , "secreto".data
  , "secretos".data
  , "sistema".data
  , "sistemas".data
  , "ventas".data
  , "venta".data
  , "crecer".data
  , "growth".data
  , "escala".data
  , "escala tu negocio".data
  , "automatizar".data
  , "automatización".data
  , "automatizacion".data
  , "funnel".data
  , "embudo".data
  , "plan".data
  , "plan claro".data
  , "resultado".data
  , "resultados".data
  , "clientes reales".data
  , "conversiones".data
  , "conversión".data
  , "conversión real".data
  , "diagnóstico".data
  , "diagnostico".data
  , "audit".data
  , "auditoría".data
  , "auditoria".data
  ]

/-- Embeds `_count_strong_words`: count the `STRONG_WORDS` entries occurring
as substrings of the lower-cased text (the source's counting loop is the
length of the filtered list). -/
def _count_strong_words (text : List Char) : Nat :=
  let lower := text.map pyLowerChar
  (STRONG_WORDS.filter (fun w => containsSub w lower)).length

/-- The soft-CTA keyword list hard-coded inside `_evaluate_scroll_stop`. -/
def SOFT_CTA_KEYWORDS : List (List Char) :=
  [ "comenta".data
  , "escribe".data
  , "pídeme".data
  , "pideme".data
  , "quieres".data
  , "descubre".data
  , "aprende".data
  , "guarda".data
  , "save".data
  ]

/-- Step 1 of `_evaluate_scroll_stop`: hook length scoring. -/
def lengthStep (words : Nat) : Int × String :=
  if 4 ≤ words ∧ words ≤ 10 then
    (25, "✅ Longitud clara (4–10 palabras). Buen ritmo para detener scroll.")
  else if 2 ≤ words ∧ words ≤ 14 then
    (15, "🟡 Longitud aceptable, pero podría ser más directa.")
  else
    (5, "⚠️ Hook muy largo o muy corto. Resta fuerza al stop scroll.")

/-- Step 2 of `_evaluate_scroll_stop`: digits present. -/
def numberStep (hasNumber : Bool) : Int × String :=
  if hasNumber then
    (10, "✅ Incluye números/datos (ej. \x273 pasos\x27, \x277 días\x27), esto suele captar atención.")
  else
    (0, "🟡 No hay números ni datos concretos. Podrías sumar \x27X pasos\x27, \x27Y días\x27, etc.")

/-- Step 3 of `_evaluate_scroll_stop`: question form. -/
def questionStep (hasQuestion : Bool) : Int × String :=
  if hasQuestion then
    (10, "✅ Está formulado como pregunta. Invita a frenar el scroll para responder mentalmente.")
  else
    (0, "🟡 No es una pregunta. A veces una pregunta directa aumenta el stop scroll.")

/-- Step 4 of `_evaluate_scroll_stop`: strong-word count bands. -/
def strongStep (strongCount : Nat) : Int × String :=
  if 2 ≤ strongCount then
    (18, "✅ Usa varias palabras fuertes (errores, sistema, resultados, etc.).")
  else if strongCount = 1 then
    (10, "🟡 Usa al menos una palabra fuerte. Podrías reforzar con otra más.")
  else
    (4, "⚠️ Falta vocabulario que active decisión (errores, sistema, resultados...).")

/-- Step 5 of `_evaluate_scroll_stop`: overall brevity. -/
def brevityStep (words : Nat) : Int × String :=
  if words ≤ 18 then
    (12, "✅ Frase relativamente corta. Se lee en un vistazo en el feed.")
  else if words ≤ 25 then
    (6, "🟡 Un poco larga. Podría perder fuerza en pantallas móviles.")
  else
    (2, "⚠️ Demasiado texto para un primer impacto. Conviene recortar.")

/-- Step 6 of `_evaluate_scroll_stop`: soft call-to-action detected. -/
def ctaStep (softCta : Bool) : Int × String :=
  if softCta then
    (8, "✅ Hay un llamado suave a la acción (CTA) dentro del hook.")
  else
    (0, "🟡 No se percibe un CTA claro. Recuerda la mecánica de palabra clave.")

/-- Step 7 of `_evaluate_scroll_stop`: platform adjustment. Unlike the other
steps it returns a (possibly empty) list of notes, because for platforms
outside the two recognised groups — and for linkedin with more than 18
words — the source appends nothing. -/
def platformStep (platform : String) (words : Nat) : Int × List String :=
  if platform ∈ ["instagram", "tiktok", "threads", "youtube"] then
    if words ≤ 14 then
      (8, ["✅ Buen tamaño para feeds rápidos (Instagram, TikTok, Threads, Shorts)."])
    else
      (-5, ["⚠️ Para Instagram/TikTok/Threads conviene algo más corto y directo."])
  else if platform = "linkedin" then
    if 6 ≤ words ∧ words ≤ 18 then
      (6, ["✅ Para LinkedIn, buen equilibrio entre claridad y contexto."])
    else if words < 6 then
      (0, ["🟡 En LinkedIn puedes sumar un poco más de contexto estratégico."])
    else
      (0, [])
  else
    (0, [])

/-- The final normalisation of `_evaluate_scroll_stop`: clamp to 0–100. -/
def clampScore (score : Int) : Int :=
  if score < 0 then 0 else if score > 100 then 100 else score

/-- The non-empty branch of `_evaluate_scroll_stop`: the seven additive
scoring steps, their notes in source order, and the final clamp. -/
def evalCore (text : List Char) (platform : String) (words : Nat) : Int × List String :=
  let hasNumber := text.any Char.isDigit
  let hasQuestion := text.contains '?' || text.contains '¿'
  let strongCount := _count_strong_words text
  let lower := text.map pyLowerChar
  let l := lengthStep words
  let n := numberStep hasNumber
  let q := questionStep hasQuestion
  let st := strongStep strongCount
  let b := brevityStep words
  let c := ctaStep (SOFT_CTA_KEYWORDS.any (fun kw => containsSub kw lower))
  let p := platformStep platform words
  let raw := l.1 + n.1 + q.1 + st.1 + b.1 + c.1 + p.1
  (clampScore raw, [l.2, n.2, q.2, st.2, b.2, c.2] ++ p.2)

/-- Embeds `_evaluate_scroll_stop(topic, platform)`: strip the topic, count
words, return the zero-word terminal case immediately, otherwise run the
additive scoring steps of `evalCore`. -/
def _evaluate_scroll_stop (topic platform : String) : Int × List String :=
  let text := pyStrip topic.data
  let words := _word_count text
  if words = 0 then
    (0, ["No hay texto para evaluar. Escribe al menos una frase clara."])
  else
    evalCore text platform words

/-- Embeds `_scroll_level`: the three score bands. -/
def _scroll_level (score : Int) : String :=
  if score ≥ 80 then "ALTO"
  else if score ≥ 55 then "MEDIO"
  else "BAJO"

/- Provider gateway and feature handlers.

The process-wide configuration read from the environment at startup is
modelled as an explicit `ProviderConfig` value. The network is modelled as
an oracle `net : Option String` — the text the selected backend would
produce, with `none` standing for any transport error, non-2xx status or
malformed body (all of which the source collapses to `None` via its
`try/except`). Python's `json.loads` is likewise an oracle
`parse : String → Option JsonVal` (`none` = the call raised). Each
embedded function additionally returns the list of observable events it
performs, so that claims about which calls happen can be stated. -/

/-- An observable effect: entering the unified LLM layer
(`call_llm_messages`), or actually issuing the outbound HTTP request. -/
inductive NetEvent where
  | gatewayCall
  | networkCall
deriving DecidableEq

/-- The process-wide provider configuration: `AID_LLM_PROVIDER` and
`OPENAI_API_KEY` (`none` when the variable is unset). -/
structure ProviderConfig where
  llmProvider : String
  openaiApiKey : Option String

/-- Python truthiness of the `OPENAI_API_KEY` value: `not OPENAI_API_KEY`
is true when the variable is unset or empty. -/
def keyMissing (cfg : ProviderConfig) : Bool :=
  match cfg.openaiApiKey with
  | none => true
  | some k => k == ""

/-- A role-tagged chat message. -/
structure Message where
  role : String
  content : String

/-- Embeds `_call_openai_chat`: with no credential it returns `None` before
building the request; otherwise it performs the HTTPS POST (one
`networkCall` event) whose outcome is the `net` oracle. -/
def _call_openai_chat (cfg : ProviderConfig) (net : Option String) :
    Option String × List NetEvent :=
  if keyMissing cfg then (none, [])
  else (net, [NetEvent.networkCall])

/-- Embeds `_call_local_chat`: always performs the HTTP POST; the `net`
oracle stands for the extracted text (or `none` when the call failed or
the body matched none of the tolerated shapes). -/
def _call_local_chat (net : Option String) : Option String × List NetEvent :=
  (net, [NetEvent.networkCall])

/-- Embeds `call_llm_messages`, the unified LLM layer: dispatch on the
configured provider. Entering this function is the `gatewayCall` event. -/
def call_llm_messages (cfg : ProviderConfig) ( _messages : List Message)
    (net : Option String) : Option String × List NetEvent :=
  if cfg.llmProvider == "local" then
    let r := _call_local_chat net
    (r.1, NetEvent.gatewayCall :: r.2)
  else
    let r := _call_openai_chat cfg net
    (r.1, NetEvent.gatewayCall :: r.2)

/-- Model of Python `a or b` for an optional string `a`: `b` when `a` is
unset or empty. -/
def pyOrOpt (a : Option String) (b : String) : String :=
  match a with
  | none => b
  | some s => if s == "" then b else s

/-- Model of Python `a or b` for strings. -/
def pyOrStr (a b : String) : String :=
  if a == "" then b else a

/-- Embeds `call_llm`: wrap the prompt in the fixed system message and call
the unified layer. -/
def call_llm (cfg : ProviderConfig) (net : Option String) (prompt : String) :
    Option String × List NetEvent :=
  call_llm_messages cfg
    [⟨"system", "Eres AI.D, la IA que se adapta al contexto donde se instala. Responde de forma clara, estratégica y accionable."⟩,
     ⟨"user", prompt⟩]
    net

/-- Request body of `POST /chat`. -/
structure ChatRequest where
  message : String
  mode : String
  language : Option String

/-- Response body of `POST /chat`. -/
structure ChatResponse where
  reply : String
  mode : String
  used_language : String
  fallback : Bool

/-- Embeds the `chat` handler (`POST /chat`): build the mode-specific
context, call the model through `call_llm`, and fall back to the basic
reply when the model returns nothing. Note that this handler performs no
credential check of its own. -/
def chat (cfg : ProviderConfig) (defaultLang : String) (net : Option String)
    (request : ChatRequest) : ChatResponse × List NetEvent :=
  let lang := pyOrOpt request.language (pyOrStr defaultLang "es")
  let context :=
    if request.mode == "adai" then
      "Eres AI.D como asesor de publicidad dentro de Ad.AI. Ayudas a PYMEs y emprendedores a mejorar sus campañas, definir presupuestos, audiencias, creatividades y embudos."
    else
      "Eres AI.D en modo externo, asistente genérico instalable en cualquier app. Te adaptas al tema de la aplicación y das respuestas claras y accionables."
  let full_prompt := context ++ "\n\nIdioma de respuesta: " ++ lang
    ++ "\n\nMensaje del usuario:\n" ++ request.message
  let r := call_llm cfg net full_prompt
  match r.1 with
  | none =>
    ({ reply := "Hola, soy AI.D en modo básico (sin modelo configurado o con error de conexión). Cuéntame sobre tu contexto y lo que quieres lograr, y te ayudo a ordenar tus próximos 3 pasos con lo que sé hasta ahora.",
       mode := request.mode, used_language := lang, fallback := true }, r.2)
  | some reply =>
    ({ reply := reply, mode := request.mode, used_language := lang, fallback := false }, r.2)

/-- A JSON value as decoded by `json.loads`. JSON numbers are modelled as
integers: the only numeric field the embedded handlers read
(`percentage`) flows through a `float` cast whose exact value no claim
inspects. -/
inductive JsonVal where
  | jnull
  | jbool (b : Bool)
  | jnum (n : Int)
  | jstr (s : String)
  | jarr (items : List JsonVal)
  | jobj (fields : List (String × JsonVal))

/-- Lookup in a decoded JSON object, as `dict.get` does. -/
def jlookup : List (String × JsonVal) → String → Option JsonVal
  | [], _ => none
  | (k, v) :: rest, key => if k == key then some v else jlookup rest key

/-- Model of Python `str()` on a JSON-decoded value. Scalars render
exactly; the repr-style rendering of nested lists/dicts is abbreviated —
no claim inspects it. -/
def pyStr : JsonVal → String
  | .jnull => "None"
  | .jbool true => "True"
  | .jbool false => "False"
  | .jnum n => toString n
  | .jstr s => s
  | .jarr _ => "<list>"
  | .jobj _ => "<dict>"

/-- Model of Python `float()` on a JSON-decoded value, with `none` for a
raised exception. Numbers and booleans convert; numeric strings (which
Python would also accept) are not modelled — no claim reaches that
corner. -/
def pyFloat : JsonVal → Option Int
  | .jnum n => some n
  | .jbool b => some (if b then 1 else 0)
  | _ => none

/-- Python truthiness of a JSON-decoded value, as used by `bool(...)` and
the `x or default` idioms in the handlers. -/
def pyTruthy : JsonVal → Bool
  | .jnull => false
  | .jbool b => b
  | .jnum n => n != 0
  | .jstr s => s != ""
  | .jarr items => !items.isEmpty
  | .jobj fields => !fields.isEmpty

/-- Python iteration over a JSON-decoded value, as used by the handlers'
list comprehensions: arrays yield their items, dicts their keys, strings
their characters. Non-iterable scalars raise TypeError in Python (reaching
the handlers' outer `except`); no claim exercises that corner and it is
modelled as the empty iteration. -/
def jIter : JsonVal → List JsonVal
  | .jarr items => items
  | .jobj fields => fields.map (fun kv => JsonVal.jstr kv.1)
  | .jstr s => s.data.map (fun c => JsonVal.jstr (String.singleton c))
  | _ => []

/-- Model of the `[str(x) for x in ...]` coercion of a JSON field. -/
def pyStrList (j : JsonVal) : List String :=
  (jIter j).map pyStr

/-- One platform/percentage line of `budget_distribution`. -/
structure BudgetSplit where
  platform : String
  percentage : Int

/-- Request body of `POST /api/ads/optimizer`. `monthly_budget` is a float
in the source; it only flows into the prompt text and is modelled as an
integer. -/
structure AdsOptimizerRequest where
  business_name : Option String
  business_type : String
  country : String
  objective : String
  monthly_budget : Int
  currency : String
  platforms : List String
  notes : Option String
  language : Option String

/-- Response body of `POST /api/ads/optimizer`. -/
structure AdsOptimizerResponse where
  summary : String
  recommended_strategy : String
  budget_distribution : List BudgetSplit
  audiences : List String
  creatives : List String
  ctas : List String

/-- One iteration of the `budget_distribution` normalisation loop: build a
`BudgetSplit` from a JSON item, or skip it (`continue`) when the item is
not a dict (`item.get` raises) or the percentage cannot be cast. -/
def parseBudgetItem : JsonVal → Option BudgetSplit
  | .jobj fields =>
    match pyFloat ((jlookup fields "percentage").getD (.jnum 0)) with
    | none => none
    | some p => some ⟨pyStr ((jlookup fields "platform").getD (.jstr "Sin plataforma")), p⟩
  | _ => none

/-- The interpolated user prompt of `ads_optimizer`. -/
def adsUserPrompt (lang business_name business_type country objective : String)
    (monthly_budget : Int) (currency platforms_str notes : String) : String :=
  "\nIdioma de respuesta: " ++ lang ++ ".\n\nDatos del negocio:\n- Nombre: "
  ++ business_name ++ "\n- Tipo de negocio: " ++ business_type ++ "\n- País: "
  ++ country ++ "\n- Objetivo principal: " ++ objective
  ++ "\n- Presupuesto mensual: " ++ toString monthly_budget ++ " " ++ currency
  ++ "\n- Plataformas disponibles: " ++ platforms_str ++ "\n- Notas extra: " ++ notes
  ++ "\n\nDevuelve SIEMPRE un JSON válido (sin texto antes ni después) con esta estructura:\n\n\x7b\n"
  ++ "  \"summary\": \"Resumen breve del caso y del objetivo en máximo 4 líneas.\",\n"
  ++ "  \"recommended_strategy\": \"Estrategia explicada en 6–10 líneas, en lenguaje simple, realista y accionable.\",\n"
  ++ "  \"budget_distribution\": [\n"
  ++ "    \x7b \"platform\": \"Instagram Ads\", \"percentage\": 50 \x7d,\n"
  ++ "    \x7b \"platform\": \"Facebook Ads\", \"percentage\": 30 \x7d,\n"
  ++ "    \x7b \"platform\": \"Google Ads\", \"percentage\": 20 \x7d\n"
  ++ "  ],\n  \"audiences\": [\n    \"Descripción de audiencia 1\",\n    \"Descripción de audiencia 2\"\n  ],\n"
  ++ "  \"creatives\": [\n    \"Idea de creatividad 1\",\n    \"Idea de creatividad 2\"\n  ],\n"
  ++ "  \"ctas\": [\n    \"Llamado a la acción 1\",\n    \"Llamado a la acción 2\"\n  ]\n\x7d\n\n"
  ++ "Asegúrate de que la suma de los porcentajes de budget_distribution sea aproximadamente 100.\n"
  ++ "No incluyas comentarios ni explicación fuera del JSON.\n"

/-- Embeds the `ads_optimizer` handler (`POST /api/ads/optimizer`): degraded
literal when the OpenAI provider is selected without a credential, then
the gateway call, the JSON parse with its raw-text fallback, and the
field-by-field normalisation with zero-value defaults. A non-dict parse
result makes `parsed.get` raise, which the outer `except` turns into the
connection-error fallback. -/
def ads_optimizer (cfg : ProviderConfig) (defaultLang : String)
    (parse : String → Option JsonVal) (net : Option String)
    (request : AdsOptimizerRequest) : AdsOptimizerResponse × List NetEvent :=
  let lang := pyOrOpt request.language (pyOrStr defaultLang "es")
  if cfg.llmProvider == "openai" && keyMissing cfg then
    ({ summary := "AI.D no tiene configurada la clave de OpenAI en el servidor. Configura OPENAI_API_KEY para activar el optimizador de campañas.",
       recommended_strategy := "", budget_distribution := [], audiences := [],
       creatives := [], ctas := [] }, [])
  else
    let business_name := pyOrOpt request.business_name "Sin nombre específico"
    let notes := pyOrOpt request.notes "Sin notas adicionales."
    let platforms_str := String.intercalate ", " request.platforms
    let messages : List Message :=
      [⟨"system", "Eres AI.D, planner senior de medios digitales con más de 15 años de experiencia en campañas para PYMEs y emprendedores. Tu trabajo es proponer una estrategia clara, realista y accionable."⟩,
       ⟨"user", adsUserPrompt lang business_name request.business_type request.country
          request.objective request.monthly_budget request.currency platforms_str notes⟩]
    let r := call_llm_messages cfg messages net
    match r.1 with
    | none =>
      ({ summary := "No se pudo conectar con el modelo de IA para generar la estrategia. Intenta de nuevo en unos minutos o revisa la configuración del modelo.",
         recommended_strategy := "", budget_distribution := [], audiences := [],
         creatives := [], ctas := [] }, r.2)
    | some raw_content =>
      match parse raw_content with
      | none =>
        ({ summary := "Propuesta de estrategia (texto libre):",
           recommended_strategy := raw_content, budget_distribution := [],
           audiences := [], creatives := [], ctas := [] }, r.2)
      | some (.jobj fields) =>
        ({ summary := pyStr ((jlookup fields "summary").getD (.jstr "")),
           recommended_strategy := pyStr ((jlookup fields "recommended_strategy").getD (.jstr "")),
           budget_distribution :=
             (jIter ((jlookup fields "budget_distribution").getD (.jarr []))).filterMap parseBudgetItem,
           audiences := pyStrList ((jlookup fields "audiences").getD (.jarr [])),
           creatives := pyStrList ((jlookup fields "creatives").getD (.jarr [])),
           ctas := pyStrList ((jlookup fields "ctas").getD (.jarr [])) }, r.2)
      | some _ =>
        ({ summary := "No se pudo conectar con el modelo de IA para generar la estrategia. Intenta de nuevo en unos minutos o revisa la configuración del modelo.",
           recommended_strategy := "", budget_distribution := [], audiences := [],
           creatives := [], ctas := [] }, r.2)

/-- Python truthiness of an optional string, as in `request.text or ...`. -/
def optTruthy (a : Option String) : Bool :=
  match a with
  | none => false
  | some s => s != ""

/-- A `dict.get(key)` result destined for an `Optional[str]` field: absent
and `null` become `none`; other non-string values would fail pydantic
validation and are modelled by their `str` rendering. -/
def asOptStr : Option JsonVal → Option String
  | none => none
  | some .jnull => none
  | some (.jstr s) => some s
  | some v => some (pyStr v)

/-- The `fields.get(key, "") or ""` idiom for a plain string field. -/
def strFieldOr (fields : List (String × JsonVal)) (key : String) : String :=
  let v := (jlookup fields key).getD (.jstr "")
  if pyTruthy v then pyStr v else ""

/-- What the searcher sees: the `VisibleSEO` pydantic model with its
declared defaults. -/
structure VisibleSEO where
  title : Option String := none
  h1 : Option String := none
  other_headings : List String := []
  content_focus : String := ""
  readability : String := ""
  keyword_usage : String := ""

/-- The `HiddenSEO` pydantic model with its declared defaults. -/
structure HiddenSEO where
  meta_title_ok : Bool := false
  meta_description_ok : Bool := false
  meta_robots : Option String := none
  canonical_present : Bool := false
  schema_org_present : Bool := false
  open_graph_present : Bool := false
  hreflang_present : Bool := false
  notes : String := ""

/-- Request body of `POST /api/seo/audit`. -/
structure SeoAuditRequest where
  url : Option String
  html : Option String
  text : Option String
  target_keywords : Option (List String)
  language : Option String

/-- Response body of `POST /api/seo/audit`. -/
structure SeoAuditResponse where
  url : Option String
  summary : String
  visible_seo : VisibleSEO
  hidden_seo : HiddenSEO
  priority_fixes : List String
  quick_wins : List String
  recommended_keywords : List String
  checklist_90_days : List String

/-- Every free-text component of a `SeoAuditResponse`, flattened, so that
statements about where raw model text can appear are expressible. -/
def seoTextFields (r : SeoAuditResponse) : List String :=
  [r.summary, r.visible_seo.content_focus, r.visible_seo.readability,
    r.visible_seo.keyword_usage, r.hidden_seo.notes]
  ++ (match r.url with | none => [] | some u => [u])
  ++ (match r.visible_seo.title with | none => [] | some t => [t])
  ++ (match r.visible_seo.h1 with | none => [] | some h => [h])
  ++ (match r.hidden_seo.meta_robots with | none => [] | some m => [m])
  ++ r.visible_seo.other_headings ++ r.priority_fixes ++ r.quick_wins
  ++ r.recommended_keywords ++ r.checklist_90_days

/-- The outer `except` fallback of `seo_audit`; `detail` stands for
`str(e)`, whose exact text depends on the Python exception raised at the
failing site. -/
def seoErrorFallback (url : Option String) (detail : String) : SeoAuditResponse :=
  { url := url
  , summary := "Hubo un error al conectar con el modelo de IA para la auditoría SEO."
  , visible_seo := {}
  , hidden_seo := { notes := "Detalle técnico: " ++ detail }
  , priority_fixes :=
      [ "Reintentar la auditoría en unos minutos."
      , "Verificar la conectividad del servidor con el modelo configurado." ]
  , quick_wins := []
  , recommended_keywords := []
  , checklist_90_days := [] }

/-- The interpolated user prompt of `seo_audit`. -/
def seoUserPrompt (idioma base_content target_keywords_str : String) : String :=
  "\nEres AI.D, una IA experta en SEO on-page y técnico.\n\n"
  ++ "Tu tarea es analizar una página web tanto en lo que el usuario ve (contenido, títulos, textos)\n"
  ++ "como en lo que el buscador ve (meta tags, schema, OG, robots, canonicals, etc.).\n\n"
  ++ "Responde SIEMPRE en " ++ idioma ++ " y SIEMPRE en formato JSON con esta estructura EXACTA:\n\n"
  ++ "\x7b\n  \"summary\": \"Resumen breve de 2–3 frases sobre el estado SEO de la página.\",\n"
  ++ "  \"visible_seo\": \x7b\n"
  ++ "    \"title\": \"Título principal que percibe el usuario (puede basarse en <title> o H1).\",\n"
  ++ "    \"h1\": \"Contenido del H1 principal si es identificable.\",\n"
  ++ "    \"other_headings\": [\"Lista de otros headings relevantes (H2, H3).\"],\n"
  ++ "    \"content_focus\": \"Evaluación del enfoque del contenido respecto a las keywords.\",\n"
  ++ "    \"readability\": \"Comentarios sobre claridad, extensión y estructura del contenido.\",\n"
  ++ "    \"keyword_usage\": \"Cómo se usan las palabras clave objetivo en el contenido.\"\n  \x7d,\n"
  ++ "  \"hidden_seo\": \x7b\n    \"meta_title_ok\": true,\n    \"meta_description_ok\": false,\n"
  ++ "    \"meta_robots\": \"Valor de meta robots si se puede inferir, o \x27desconocido\x27.\",\n"
  ++ "    \"canonical_present\": true,\n    \"schema_org_present\": false,\n"
  ++ "    \"open_graph_present\": true,\n    \"hreflang_present\": false,\n"
  ++ "    \"notes\": \"Notas resumidas sobre meta tags, OG, schema, indexabilidad, etc.\"\n  \x7d,\n"
  ++ "  \"priority_fixes\": [\n    \"Lista de 3–7 acciones SEO críticas y priorizadas (alto impacto).\"\n  ],\n"
  ++ "  \"quick_wins\": [\n    \"Lista de 3–7 mejoras rápidas que se puedan aplicar en 1–2 días.\"\n  ],\n"
  ++ "  \"recommended_keywords\": [\n    \"Lista de 5–10 palabras clave sugeridas, relacionadas con el contenido y las keywords objetivo.\"\n  ],\n"
  ++ "  \"checklist_90_days\": [\n    \"Lista de 5–10 acciones a completar en 90 días para mejorar SEO on-page y técnico.\"\n  ]\n\x7d\n\n"
  ++ "Ten en cuenta:\n- Contenido proporcionado (HTML o texto plano recortado):\n\"\"\""
  ++ base_content ++ "\"\"\"\n\n"
  ++ "- Palabras clave objetivo del cliente:\n" ++ target_keywords_str ++ "\n\n"
  ++ "Reglas:\n- Si no puedes detectar algo con claridad (por ejemplo, schema.org o hreflang),\n"
  ++ "  responde de forma conservadora (por ejemplo, schema_org_present: false y anótalo en \x27notes\x27).\n"
  ++ "- En \x27priority_fixes\x27 y \x27quick_wins\x27, da acciones concretas, no genéricas.\n"
  ++ "- En \x27recommended_keywords\x27, mezcla variaciones de cola corta y cola larga.\n"
  ++ "- No agregues texto fuera del JSON. Solo responde el objeto JSON.\n"

/-- Embeds the `seo_audit` handler (`POST /api/seo/audit`): first the
no-content early return, then the credential check, then gateway call,
JSON parse with its fixed-message fallback, and recursive normalisation
of the nested `visible_seo` / `hidden_seo` objects. A non-dict where a
dict is expected makes the corresponding `.get` raise, reaching the outer
`except` fallback. -/
def seo_audit (cfg : ProviderConfig) (defaultLang : String)
    (parse : String → Option JsonVal) (net : Option String)
    (request : SeoAuditRequest) : SeoAuditResponse × List NetEvent :=
  let lang := pyOrOpt request.language (pyOrStr defaultLang "es")
  if !(optTruthy request.text || optTruthy request.html) then
    ({ url := request.url
     , summary := "No se pudo realizar la auditoría SEO porque no se envió contenido (\x27text\x27 o \x27html\x27)."
     , visible_seo := {}
     , hidden_seo := { notes := "Sin contenido para analizar." }
     , priority_fixes := ["Vuelve a llamar el endpoint enviando al menos el HTML o texto plano de la página."]
     , quick_wins := [], recommended_keywords := [], checklist_90_days := [] }, [])
  else if cfg.llmProvider == "openai" && keyMissing cfg then
    ({ url := request.url
     , summary := "AI.D está en modo básico (sin clave de OpenAI configurada). Se requiere OPENAI_API_KEY para activar la auditoría SEO avanzada."
     , visible_seo := {}
     , hidden_seo := { notes := "Sin análisis técnico por falta de modelo." }
     , priority_fixes :=
         [ "Configurar la variable de entorno OPENAI_API_KEY en el servidor."
         , "Reintentar la auditoría SEO una vez activado el modelo." ]
     , quick_wins := [], recommended_keywords := [], checklist_90_days := [] }, [])
  else
    let base_content := (pyOrOpt request.text (pyOrOpt request.html "")).take 15000
    let target_keywords_str :=
      match request.target_keywords with
      | some ks =>
        if ks.isEmpty then "Ninguna keyword objetivo específica."
        else String.intercalate ", " ks
      | none => "Ninguna keyword objetivo específica."
    let idioma := if lang.startsWith "es" then "español" else "inglés"
    let messages : List Message :=
      [⟨"system", "Eres AI.D, una IA experta en SEO on-page y técnico. Analizas tanto el contenido visible como las señales técnicas."⟩,
       ⟨"user", seoUserPrompt idioma base_content target_keywords_str⟩]
    let r := call_llm_messages cfg messages net
    match r.1 with
    | none => (seoErrorFallback request.url "LLM sin respuesta", r.2)
    | some raw =>
      match parse raw with
      | none =>
        ({ url := request.url
         , summary := "No se pudo parsear la respuesta del modelo como JSON."
         , visible_seo := {}
         , hidden_seo := { notes := "Revisa la respuesta cruda del modelo y ajusta el prompt si es necesario." }
         , priority_fixes := [], quick_wins := [], recommended_keywords := []
         , checklist_90_days := [] }, r.2)
      | some (.jobj fields) =>
        let vd0 := (jlookup fields "visible_seo").getD (.jobj [])
        let vd := if pyTruthy vd0 then vd0 else JsonVal.jobj []
        let hd0 := (jlookup fields "hidden_seo").getD (.jobj [])
        let hd := if pyTruthy hd0 then hd0 else JsonVal.jobj []
        match vd, hd with
        | .jobj vfields, .jobj hfields =>
          ({ url := request.url
           , summary := pyStr ((jlookup fields "summary").getD (.jstr ""))
           , visible_seo :=
             { title := asOptStr (jlookup vfields "title")
             , h1 := asOptStr (jlookup vfields "h1")
             , other_headings :=
                 pyStrList
                   (if pyTruthy ((jlookup vfields "other_headings").getD (.jarr []))
                    then (jlookup vfields "other_headings").getD (.jarr [])
                    else .jarr [])
             , content_focus := strFieldOr vfields "content_focus"
             , readability := strFieldOr vfields "readability"
             , keyword_usage := strFieldOr vfields "keyword_usage" }
           , hidden_seo :=
             { meta_title_ok := pyTruthy ((jlookup hfields "meta_title_ok").getD (.jbool false))
             , meta_description_ok := pyTruthy ((jlookup hfields "meta_description_ok").getD (.jbool false))
             , meta_robots := asOptStr (jlookup hfields "meta_robots")
             , canonical_present := pyTruthy ((jlookup hfields "canonical_present").getD (.jbool false))
             , schema_org_present := pyTruthy ((jlookup hfields "schema_org_present").getD (.jbool false))
             , open_graph_present := pyTruthy ((jlookup hfields "open_graph_present").getD (.jbool false))
             , hreflang_present := pyTruthy ((jlookup hfields "hreflang_present").getD (.jbool false))
             , notes := strFieldOr hfields "notes" }
           , priority_fixes := pyStrList ((jlookup fields "priority_fixes").getD (.jarr []))
           , quick_wins := pyStrList ((jlookup fields "quick_wins").getD (.jarr []))
           , recommended_keywords := pyStrList ((jlookup fields "recommended_keywords").getD (.jarr []))
           , checklist_90_days := pyStrList ((jlookup fields "checklist_90_days").getD (.jarr [])) }, r.2)
        | _, _ => (seoErrorFallback request.url "objeto JSON con forma inesperada", r.2)
      | some _ => (seoErrorFallback request.url "objeto JSON con forma inesperada", r.2)

/-- Model of `str.strip()` at the `String` level. -/
def stringStrip (s : String) : String :=
  ⟨pyStrip s.data⟩

/-- Request body of `POST /api/content/hook-optimizer`. -/
structure HookOptimizerRequest where
  platform : String
  hook : String
  objective : String
  language : Option String

/-- Response body of `POST /api/content/hook-optimizer`. -/
structure HookOptimizerResponse where
  original_hook : String
  original_score : Int
  original_level : String
  improved_hook : String
  improved_score : Int
  improved_level : String
  variants : List String
  explanation : String
  recommended_format : String
  suggested_keyword : String

/-- The interpolated user prompt of `hook_optimizer`. -/
def hookUserPrompt (platform objective lang original_hook : String) : String :=
  "\nPlataforma: " ++ platform ++ "\nObjetivo: " ++ objective ++ "\nIdioma: " ++ lang
  ++ "\n\nHook original:\n\"" ++ original_hook
  ++ "\"\n\nGenera SIEMPRE un JSON válido con esta estructura:\n\n\x7b\n"
  ++ "  \"improved_hook\": \"Versión optimizada del hook, máximo 7 palabras, muy claro y potente.\",\n"
  ++ "  \"variants\": [\n    \"Variante alternativa 1\",\n    \"Variante alternativa 2\",\n    \"Variante alternativa 3\"\n  ],\n"
  ++ "  \"explanation\": \"Explica en 3–5 líneas qué se mejoró (longitud, fuerza, claridad, CTA, etc.).\",\n"
  ++ "  \"recommended_format\": \"Reel 30s / Carrusel 3 slides / Post estático\",\n"
  ++ "  \"suggested_keyword\": \"PALABRA_CLAVE_CORTA para el funnel (ej. SYSTEM, AUDIT, GROWTH).\"\n\x7d\n\n"
  ++ "No escribas nada fuera del JSON.\n"

/-- Embeds the `hook_optimizer` handler (`POST /api/content/hook-optimizer`):
the heuristic evaluation of the (stripped) original hook always happens
first; with the OpenAI provider selected and no credential the handler
returns the echoing degraded literal; otherwise the gateway is called and
the improved hook is scored with the same heuristic. -/
def hook_optimizer (cfg : ProviderConfig) (defaultLang : String)
    (parse : String → Option JsonVal) (net : Option String)
    (request : HookOptimizerRequest) : HookOptimizerResponse × List NetEvent :=
  let lang := pyOrOpt request.language (pyOrStr defaultLang "es")
  let platform := request.platform
  let original_hook := stringStrip request.hook
  let orig := _evaluate_scroll_stop original_hook platform
  let orig_level := _scroll_level orig.1
  if cfg.llmProvider == "openai" && keyMissing cfg then
    ({ original_hook := original_hook, original_score := orig.1, original_level := orig_level
     , improved_hook := original_hook, improved_score := orig.1, improved_level := orig_level
     , variants := []
     , explanation := "AI.D está en modo sin modelo avanzado. Usa la heurística básica de stop scroll."
     , recommended_format := "Post estático", suggested_keyword := "SYSTEM" }, [])
  else
    let messages : List Message :=
      [⟨"system", "Eres AI.D, experto en hooks de alto rendimiento para redes sociales. Conoces a fondo el comportamiento de scroll en Instagram, LinkedIn, TikTok, Threads y YouTube. Tu misión es hacer los hooks más cortos, claros y potentes, alineados al funnel."⟩,
       ⟨"user", hookUserPrompt platform request.objective lang original_hook⟩]
    let r := call_llm_messages cfg messages net
    match r.1 with
    | none =>
      ({ original_hook := original_hook, original_score := orig.1, original_level := orig_level
       , improved_hook := original_hook, improved_score := orig.1, improved_level := orig_level
       , variants := []
       , explanation := "Error al conectar con el modelo de IA: LLM sin respuesta"
       , recommended_format := "Post estático", suggested_keyword := "SYSTEM" }, r.2)
    | some raw =>
      match parse raw with
      | none =>
        ({ original_hook := original_hook, original_score := orig.1, original_level := orig_level
         , improved_hook := original_hook, improved_score := orig.1, improved_level := orig_level
         , variants := []
         , explanation := "No se pudo parsear el JSON. Respuesta cruda del modelo: " ++ raw
         , recommended_format := "Post estático", suggested_keyword := "SYSTEM" }, r.2)
      | some (.jobj fields) =>
        let improved_hook := stringStrip (pyStr ((jlookup fields "improved_hook").getD (.jstr original_hook)))
        let variants := pyStrList ((jlookup fields "variants").getD (.jarr []))
        let imp := _evaluate_scroll_stop improved_hook platform
        ({ original_hook := original_hook, original_score := orig.1, original_level := orig_level
         , improved_hook := improved_hook, improved_score := imp.1
         , improved_level := _scroll_level imp.1
         , variants := variants
         , explanation := pyStr ((jlookup fields "explanation").getD (.jstr ""))
         , recommended_format := pyStr ((jlookup fields "recommended_format").getD (.jstr ""))
         , suggested_keyword := pyStr ((jlookup fields "suggested_keyword").getD (.jstr "")) }, r.2)
      | some _ =>
        ({ original_hook := original_hook, original_score := orig.1, original_level := orig_level
         , improved_hook := original_hook, improved_score := orig.1, improved_level := orig_level
         , variants := []
         , explanation := "Error al conectar con el modelo de IA: objeto JSON con forma inesperada"
         , recommended_format := "Post estático", suggested_keyword := "SYSTEM" }, r.2)

/- Supporting lemmas about word counting and stripping. -/

theorem splitWsAux_ws_only (t : List Char) (ht : ∀ c ∈ t, c.isWhitespace) (cur : List Char) :
    splitWsAux t cur = if cur = [] then [] else [cur.reverse] := by
  induction t generalizing cur with
  | nil => rfl
  | cons c t ih =>
    have hc : c.isWhitespace := ht c (List.mem_cons_self c t)
    have ht' : ∀ x ∈ t, x.isWhitespace := fun x hx => ht x (List.mem_cons_of_mem c hx)
    by_cases hcur : cur = []
    · simp [splitWsAux, hc, hcur, ih ht']
    · simp [splitWsAux, hc, hcur, ih ht']

theorem splitWsAux_append_ws (l t : List Char) (ht : ∀ c ∈ t, c.isWhitespace)
    (cur : List Char) : splitWsAux (l ++ t) cur = splitWsAux l cur := by
  induction l generalizing cur with
  | nil => simpa [splitWsAux] using splitWsAux_ws_only t ht cur
  | cons c l ih =>
    by_cases hc : c.isWhitespace <;> by_cases hcur : cur = [] <;>
      simp [splitWsAux, hc, hcur, ih]

theorem pyWords_dropWhile (l : List Char) :
    pyWords (l.dropWhile Char.isWhitespace) = pyWords l := by
  induction l with
  | nil => rfl
  | cons c l ih =>
    by_cases hc : c.isWhitespace
    · simpa [List.dropWhile, hc, pyWords, splitWsAux] using ih
    · simp [List.dropWhile, hc]

theorem reverse_dropWhile_decomp (m : List Char) :
    m = (m.reverse.dropWhile Char.isWhitespace).reverse
        ++ (m.reverse.takeWhile Char.isWhitespace).reverse := by
  conv_lhs =>
    rw [← List.reverse_reverse m,
      ← List.takeWhile_append_dropWhile (p := Char.isWhitespace) (l := m.reverse),
      List.reverse_append]

theorem strip_decomp (l : List Char) :
    ∃ t, l.dropWhile Char.isWhitespace = pyStrip l ++ t ∧ ∀ c ∈ t, c.isWhitespace := by
  refine ⟨((l.dropWhile Char.isWhitespace).reverse.takeWhile Char.isWhitespace).reverse,
    ?_, ?_⟩
  · exact reverse_dropWhile_decomp (l.dropWhile Char.isWhitespace)
  · intro c hc
    rw [List.mem_reverse] at hc
    exact List.mem_takeWhile_imp hc

theorem pyWords_strip (l : List Char) : pyWords (pyStrip l) = pyWords l := by
  obtain ⟨t, hm, ht⟩ := strip_decomp l
  have h1 : pyWords (pyStrip l ++ t) = pyWords (pyStrip l) :=
    splitWsAux_append_ws (pyStrip l) t ht []
  calc pyWords (pyStrip l) = pyWords (pyStrip l ++ t) := h1.symm
    _ = pyWords (l.dropWhile Char.isWhitespace) := by rw [← hm]
    _ = pyWords l := pyWords_dropWhile l

theorem word_count_strip (l : List Char) : _word_count (pyStrip l) = _word_count l := by
  simp only [_word_count, pyWords_strip]

/- Supporting lemmas about the individual scoring steps. -/

theorem lengthStep_bounds (w : Nat) : 5 ≤ (lengthStep w).1 ∧ (lengthStep w).1 ≤ 25 := by
  unfold lengthStep; split_ifs <;> exact ⟨by decide, by decide⟩

theorem numberStep_bounds (b : Bool) : 0 ≤ (numberStep b).1 ∧ (numberStep b).1 ≤ 10 := by
  cases b <;> exact ⟨by decide, by decide⟩

theorem questionStep_bounds (b : Bool) : 0 ≤ (questionStep b).1 ∧ (questionStep b).1 ≤ 10 := by
  cases b <;> exact ⟨by decide, by decide⟩

theorem strongStep_bounds (n : Nat) : 4 ≤ (strongStep n).1 ∧ (strongStep n).1 ≤ 18 := by
  unfold strongStep; split_ifs <;> exact ⟨by decide, by decide⟩

theorem brevityStep_bounds (w : Nat) : 2 ≤ (brevityStep w).1 ∧ (brevityStep w).1 ≤ 12 := by
  unfold brevityStep; split_ifs <;> exact ⟨by decide, by decide⟩

theorem ctaStep_bounds (b : Bool) : 0 ≤ (ctaStep b).1 ∧ (ctaStep b).1 ≤ 8 := by
  cases b <;> exact ⟨by decide, by decide⟩

theorem platformStep_bounds (p : String) (w : Nat) :
    -5 ≤ (platformStep p w).1 ∧ (platformStep p w).1 ≤ 8 := by
  unfold platformStep; split_ifs <;> exact ⟨by decide, by decide⟩

theorem platformStep_notes (p : String) (w : Nat) :
    (platformStep p w).2.length =
      if p ∈ ["instagram", "tiktok", "threads", "youtube"] ∨ (p = "linkedin" ∧ w ≤ 18)
      then 1 else 0 := by
  unfold platformStep
  by_cases hff : p ∈ ["instagram", "tiktok", "threads", "youtube"]
  · rw [if_pos hff, if_pos (Or.inl hff)]
    by_cases hw : w ≤ 14
    · rw [if_pos hw]; rfl
    · rw [if_neg hw]; rfl
  · rw [if_neg hff]
    by_cases hli : p = "linkedin"
    · rw [if_pos hli]
      by_cases hband : 6 ≤ w ∧ w ≤ 18
      · rw [if_pos hband, if_pos (Or.inr ⟨hli, hband.2⟩)]; rfl
      · rw [if_neg hband]
        by_cases hlt : w < 6
        · rw [if_pos hlt, if_pos (Or.inr ⟨hli, by omega⟩)]; rfl
        · push_neg at hband hlt
          have h18 : 18 < w := hband hlt
          have hcond : ¬(p ∈ ["instagram", "tiktok", "threads", "youtube"]
              ∨ (p = "linkedin" ∧ w ≤ 18)) := by
            rintro (h | ⟨_, hw18⟩)
            · exact hff h
            · omega
          rw [if_neg (by omega : ¬ w < 6), if_neg hcond]; rfl
    · rw [if_neg hli]
      have hcond : ¬(p ∈ ["instagram", "tiktok", "threads", "youtube"]
          ∨ (p = "linkedin" ∧ w ≤ 18)) := by
        rintro (h | ⟨h', _⟩)
        · exact hff h
        · exact hli h'
      rw [if_neg hcond]; rfl

theorem evalCore_fst (text : List Char) (platform : String) (words : Nat) :
    (evalCore text platform words).1 =
      clampScore ((lengthStep words).1
        + (numberStep (text.any Char.isDigit)).1
        + (questionStep (text.contains '?' || text.contains '¿')).1
        + (strongStep (_count_strong_words text)).1
        + (brevityStep words).1
        + (ctaStep (SOFT_CTA_KEYWORDS.any (fun kw => containsSub kw (text.map pyLowerChar)))).1
        + (platformStep platform words).1) := rfl

theorem evalCore_snd (text : List Char) (platform : String) (words : Nat) :
    (evalCore text platform words).2 =
      [(lengthStep words).2,
       (numberStep (text.any Char.isDigit)).2,
       (questionStep (text.contains '?' || text.contains '¿')).2,
       (strongStep (_count_strong_words text)).2,
       (brevityStep words).2,
       (ctaStep (SOFT_CTA_KEYWORDS.any (fun kw => containsSub kw (text.map pyLowerChar)))).2]
      ++ (platformStep platform words).2 := rfl

theorem clampScore_range (r : Int) : 0 ≤ clampScore r ∧ clampScore r ≤ 100 := by
  unfold clampScore; split_ifs <;> omega

theorem evalCore_bounds (text : List Char) (platform : String) (words : Nat) :
    6 ≤ (evalCore text platform words).1 ∧ (evalCore text platform words).1 ≤ 91 := by
  rw [evalCore_fst]
  have hl := lengthStep_bounds words
  have hn := numberStep_bounds (text.any Char.isDigit)
  have hq := questionStep_bounds (text.contains '?' || text.contains '¿')
  have hs := strongStep_bounds (_count_strong_words text)
  have hb := brevityStep_bounds words
  have hc := ctaStep_bounds (SOFT_CTA_KEYWORDS.any (fun kw => containsSub kw (text.map pyLowerChar)))
  have hp := platformStep_bounds platform words
  unfold clampScore; split_ifs <;> omega

theorem eval_eq_ite (topic platform : String) :
    _evaluate_scroll_stop topic platform =
      if _word_count (pyStrip topic.data) = 0 then
        ((0 : Int), ["No hay texto para evaluar. Escribe al menos una frase clara."])
      else
        evalCore (pyStrip topic.data) platform (_word_count (pyStrip topic.data)) := rfl

/-- Claim C1: for every input text and every platform the scroll-stop
evaluator returns a score in [0, 100]; and for empty or whitespace-only
text (zero words) it returns score 0 with a details list containing
exactly one entry — the early-return terminal case. -/
theorem claim_C1_score_range_and_terminal (topic platform : String) :
    (0 ≤ (_evaluate_scroll_stop topic platform).1
      ∧ (_evaluate_scroll_stop topic platform).1 ≤ 100)
    ∧ (_word_count topic.data = 0 →
        (_evaluate_scroll_stop topic platform).1 = 0
        ∧ (_evaluate_scroll_stop topic platform).2.length = 1) := by
  rw [eval_eq_ite, word_count_strip]
  by_cases h : _word_count topic.data = 0
  · rw [if_pos h]
    exact ⟨⟨by decide, by decide⟩, fun _ => ⟨rfl, rfl⟩⟩
  · rw [if_neg h]
    obtain ⟨h6, h91⟩ := evalCore_bounds (pyStrip topic.data) platform (_word_count topic.data)
    exact ⟨⟨by omega, by omega⟩, fun h0 => absurd h0 h⟩

/-- Witness for claim C1 at the whitespace-only topic, discharging the
zero-word hypothesis concretely. -/
theorem claim_C1_witness :
    _word_count "   ".data = 0
    ∧ (_evaluate_scroll_stop "   " "instagram").1 = 0
    ∧ (_evaluate_scroll_stop "   " "instagram").2.length = 1 :=
  ⟨by decide,
    ((claim_C1_score_range_and_terminal "   " "instagram").2 (by decide)).1,
    ((claim_C1_score_range_and_terminal "   " "instagram").2 (by decide)).2⟩

/-- Claim C9: for non-empty input the sum of the step contributions lies in
[6, 91] and the clamp never fires, so the returned score itself is always
between 6 and 91 and in particular never reaches 100. -/
theorem claim_C9_nonempty_bounds (topic platform : String)
    (h : _word_count topic.data ≠ 0) :
    6 ≤ (_evaluate_scroll_stop topic platform).1
    ∧ (_evaluate_scroll_stop topic platform).1 ≤ 91 := by
  rw [eval_eq_ite, word_count_strip, if_neg h]
  exact evalCore_bounds _ _ _

/-- Witness for claim C9 at a concrete one-word topic. -/
theorem claim_C9_witness :
    _word_count "hola".data ≠ 0
    ∧ 6 ≤ (_evaluate_scroll_stop "hola" "generic").1
    ∧ (_evaluate_scroll_stop "hola" "generic").1 ≤ 91 :=
  ⟨by decide, (claim_C9_nonempty_bounds "hola" "generic" (by decide)).1,
    (claim_C9_nonempty_bounds "hola" "generic" (by decide)).2⟩

/-- Counterexample to claim C2: for the non-empty text "hola que tal" on the
facebook platform the details list has six entries, not one per scoring
step (seven) — the platform-adjustment step appends no note for platforms
outside the fast-feed group and linkedin. -/
theorem claim_C2_counterexample :
    (_evaluate_scroll_stop "hola que tal" "facebook").2.length ≠ 7 := by decide

/-- Amended claim C2: the first six scoring steps always append exactly one
note each; the platform-adjustment step appends exactly one note when the
platform is a fast-feed platform, or linkedin with at most 18 words, and
none otherwise, so the details list has 7 entries in the former cases and
6 in the latter. -/
theorem claim_C2_amended (topic platform : String)
    (h : _word_count topic.data ≠ 0) :
    (_evaluate_scroll_stop topic platform).2.length =
      if platform ∈ ["instagram", "tiktok", "threads", "youtube"]
          ∨ (platform = "linkedin" ∧ _word_count topic.data ≤ 18)
      then 7 else 6 := by
  rw [eval_eq_ite, word_count_strip, if_neg h, evalCore_snd, List.length_append,
    platformStep_notes]
  split_ifs <;> rfl

/-- Witness for the amended claim C2 at a concrete three-word text on a
fast-feed platform (seven notes). -/
theorem claim_C2_amended_witness :
    _word_count "hola que tal".data ≠ 0
    ∧ (_evaluate_scroll_stop "hola que tal" "instagram").2.length = 7 := by
  refine ⟨by decide, ?_⟩
  have h := claim_C2_amended "hola que tal" "instagram" (by decide)
  rw [if_pos (Or.inl (by decide))] at h
  exact h

/-- Claim C5: the level function is a three-band function of the score with
exact boundaries: ALTO iff score ≥ 80, MEDIO iff 55 ≤ score ≤ 79, BAJO
iff score ≤ 54 (in particular 79 → MEDIO, 80 → ALTO, 54 → BAJO,
55 → MEDIO). -/
theorem claim_C5_level_bands (s : Int) :
    (_scroll_level s = "ALTO" ↔ 80 ≤ s)
    ∧ (_scroll_level s = "MEDIO" ↔ 55 ≤ s ∧ s ≤ 79)
    ∧ (_scroll_level s = "BAJO" ↔ s ≤ 54) := by
  unfold _scroll_level
  split_ifs with h1 h2
  · exact ⟨⟨fun _ => h1, fun _ => rfl⟩,
      ⟨fun hq => absurd hq (by decide), fun hq => (by omega : False).elim⟩,
      ⟨fun hq => absurd hq (by decide), fun hq => (by omega : False).elim⟩⟩
  · exact ⟨⟨fun hq => absurd hq (by decide), fun hq => (by omega : False).elim⟩,
      ⟨fun _ => by omega, fun _ => rfl⟩,
      ⟨fun hq => absurd hq (by decide), fun hq => (by omega : False).elim⟩⟩
  · exact ⟨⟨fun hq => absurd hq (by decide), fun hq => (by omega : False).elim⟩,
      ⟨fun hq => absurd hq (by decide), fun hq => (by omega : False).elim⟩,
      ⟨fun _ => by omega, fun _ => rfl⟩⟩

/-- Claim C6: the strong-word step contributes +18 for at least two matches
of the fixed vocabulary against the lower-cased text, +10 for exactly one
and +4 for none — so any text with exactly two matches gets +18 no matter
which entries matched. -/
theorem claim_C6_strong_contribution (text : List Char) :
    (2 ≤ _count_strong_words text → (strongStep (_count_strong_words text)).1 = 18)
    ∧ (_count_strong_words text = 1 → (strongStep (_count_strong_words text)).1 = 10)
    ∧ (_count_strong_words text = 0 → (strongStep (_count_strong_words text)).1 = 4) := by
  refine ⟨fun h => ?_, fun h => ?_, fun h => ?_⟩ <;> unfold strongStep <;>
    split_ifs <;> first | rfl | exact (by omega : False).elim

/-- Witness for claim C6: the text "ventas" matches exactly the two
vocabulary entries "ventas" and "venta", and the contribution is +18. -/
theorem claim_C6_witness :
    2 ≤ _count_strong_words "ventas".data
    ∧ (strongStep (_count_strong_words "ventas".data)).1 = 18 :=
  ⟨by decide, (claim_C6_strong_contribution "ventas".data).1 (by decide)⟩

/-- Claim C7: for any fixed 20-word text, the score on a fast-feed platform
equals the linkedin score minus 5: the fast-feed adjustment is −5 above 14
words, linkedin gives no bonus at 20 words, and all other contributions
coincide (no clamp fires at these sums). -/
theorem claim_C7_platform_delta (topic platform : String)
    (h20 : _word_count topic.data = 20)
    (hff : platform ∈ ["instagram", "tiktok", "threads", "youtube"]) :
    (_evaluate_scroll_stop topic platform).1
      = (_evaluate_scroll_stop topic "linkedin").1 - 5 := by
  rw [eval_eq_ite topic platform, eval_eq_ite topic "linkedin"]
  simp only [word_count_strip, h20]
  simp only [if_neg (by decide : ¬((20 : Nat) = 0))]
  rw [evalCore_fst (pyStrip topic.data) platform 20,
    evalCore_fst (pyStrip topic.data) "linkedin" 20]
  have hpp : (platformStep platform 20).1 = -5 := by fin_cases hff <;> decide
  have hpl : (platformStep "linkedin" 20).1 = 0 := by decide
  have hl20 : (lengthStep 20).1 = 5 := by decide
  have hb20 : (brevityStep 20).1 = 6 := by decide
  rw [hpp, hpl, hl20, hb20]
  have hn := numberStep_bounds ((pyStrip topic.data).any Char.isDigit)
  have hq := questionStep_bounds
    ((pyStrip topic.data).contains '?' || (pyStrip topic.data).contains '¿')
  have hs := strongStep_bounds (_count_strong_words (pyStrip topic.data))
  have hc := ctaStep_bounds
    (SOFT_CTA_KEYWORDS.any (fun kw => containsSub kw ((pyStrip topic.data).map pyLowerChar)))
  unfold clampScore
  split_ifs <;> omega

/-- Witness for claim C7 at a concrete 20-word text on instagram. -/
theorem claim_C7_witness :
    _word_count "a b c d e f g h i j k l m n o p q r s t".data = 20
    ∧ "instagram" ∈ (["instagram", "tiktok", "threads", "youtube"] : List String)
    ∧ (_evaluate_scroll_stop "a b c d e f g h i j k l m n o p q r s t" "instagram").1
        = (_evaluate_scroll_stop "a b c d e f g h i j k l m n o p q r s t" "linkedin").1 - 5 :=
  ⟨by decide, by decide,
    claim_C7_platform_delta "a b c d e f g h i j k l m n o p q r s t" "instagram"
      (by decide) (by decide)⟩

/-- Counterexample to claim C3: when the gateway text does not parse as
JSON, the seo-audit handler does not return a raw-text-carrier response —
its fallback is a fixed literal and no field of the response carries the
raw text "not json". -/
theorem claim_C3_counterexample :
    (seo_audit ⟨"openai", some "sk-test"⟩ "es" (fun _ => none) (some "not json")
        { url := some "https://example.com", html := none, text := some "contenido"
        , target_keywords := none, language := none }).1 =
      { url := some "https://example.com"
      , summary := "No se pudo parsear la respuesta del modelo como JSON."
      , visible_seo := {}
      , hidden_seo := { notes := "Revisa la respuesta cruda del modelo y ajusta el prompt si es necesario." }
      , priority_fixes := [], quick_wins := [], recommended_keywords := []
      , checklist_90_days := [] }
    ∧ "not json" ∉ seoTextFields
        (seo_audit ⟨"openai", some "sk-test"⟩ "es" (fun _ => none) (some "not json")
          { url := some "https://example.com", html := none, text := some "contenido"
          , target_keywords := none, language := none }).1 :=
  ⟨rfl, by decide⟩

/-- Amended claim C3: on parse failure `ads_optimizer` does return the
raw-text-carrier shape (raw text verbatim in `recommended_strategy`, every
structured field emptied, an unstructured-output note in `summary`), but
`seo_audit` does not: its parse-failure fallback is a fixed literal,
independent of the raw text. -/
theorem claim_C3_amended (defaultLang : String) (req : AdsOptimizerRequest)
    (raw : String) :
    (ads_optimizer ⟨"openai", some "sk-test"⟩ defaultLang (fun _ => none)
        (some raw) req).1 =
      { summary := "Propuesta de estrategia (texto libre):"
      , recommended_strategy := raw, budget_distribution := []
      , audiences := [], creatives := [], ctas := [] }
    ∧ ∀ raw2 : String,
      (seo_audit ⟨"openai", some "sk-test"⟩ defaultLang (fun _ => none) (some raw)
          { url := some "https://example.com", html := none, text := some "contenido"
          , target_keywords := none, language := none }).1
        = (seo_audit ⟨"openai", some "sk-test"⟩ defaultLang (fun _ => none) (some raw2)
          { url := some "https://example.com", html := none, text := some "contenido"
          , target_keywords := none, language := none }).1 :=
  ⟨rfl, fun _ => rfl⟩

/-- Counterexample to claim C4: with the OpenAI provider selected and no
credential configured, the `/chat` handler still invokes the unified
gateway layer (`call_llm_messages`) — it performs no credential check of
its own, so the claimed zero gateway invocations is false. -/
theorem claim_C4_counterexample :
    NetEvent.gatewayCall ∈
      (chat ⟨"openai", none⟩ "es" none
        { message := "hola", mode := "adai", language := none }).2 := by decide

/-- Amended claim C4: with the OpenAI provider selected and no credential,
the /api tool handlers short-circuit before the gateway (no gateway and no
network events), while `/chat` does invoke the gateway; the gateway's
OpenAI call then detects the missing credential itself and returns failure
before building the request, so no network call ever occurs in this
state. -/
theorem claim_C4_amended (defaultLang : String) (parse : String → Option JsonVal)
    (net : Option String) (r1 : AdsOptimizerRequest) (r2 : SeoAuditRequest)
    (r3 : HookOptimizerRequest) (r4 : ChatRequest) :
    (ads_optimizer ⟨"openai", none⟩ defaultLang parse net r1).2 = []
    ∧ (seo_audit ⟨"openai", none⟩ defaultLang parse net r2).2 = []
    ∧ (hook_optimizer ⟨"openai", none⟩ defaultLang parse net r3).2 = []
    ∧ (chat ⟨"openai", none⟩ defaultLang net r4).2 = [NetEvent.gatewayCall]
    ∧ NetEvent.networkCall ∉ (chat ⟨"openai", none⟩ defaultLang net r4).2 := by
  refine ⟨rfl, ?_, rfl, rfl,
    (by decide : NetEvent.networkCall ∉ ([NetEvent.gatewayCall] : List NetEvent))⟩
  cases hcontent : !(optTruthy r2.text || optTruthy r2.html) with
  | true => simp only [seo_audit, hcontent]; rfl
  | false => simp only [seo_audit, hcontent]; rfl

/-- Claim C8: with the OpenAI provider selected and no credential, the tool
endpoints return their fully populated degraded literals rather than a
fault: `ads_optimizer` returns `budget_distribution = []` with the
configuration-missing summary and every list/string field present and
empty, and `seo_audit` likewise returns its degraded literal. -/
theorem claim_C8_degraded_literal (defaultLang : String)
    (parse : String → Option JsonVal) (net : Option String)
    (req : AdsOptimizerRequest) :
    (ads_optimizer ⟨"openai", none⟩ defaultLang parse net req).1 =
      { summary := "AI.D no tiene configurada la clave de OpenAI en el servidor. Configura OPENAI_API_KEY para activar el optimizador de campañas."
      , recommended_strategy := "", budget_distribution := [], audiences := []
      , creatives := [], ctas := [] }
    ∧ (seo_audit ⟨"openai", none⟩ defaultLang parse net
        { url := some "https://example.org", html := none, text := some "hola mundo"
        , target_keywords := none, language := none }).1 =
      { url := some "https://example.org"
      , summary := "AI.D está en modo básico (sin clave de OpenAI configurada). Se requiere OPENAI_API_KEY para activar la auditoría SEO avanzada."
      , visible_seo := {}
      , hidden_seo := { notes := "Sin análisis técnico por falta de modelo." }
      , priority_fixes :=
          [ "Configurar la variable de entorno OPENAI_API_KEY en el servidor."
          , "Reintentar la auditoría SEO una vez activado el modelo." ]
      , quick_wins := [], recommended_keywords := [], checklist_90_days := [] } :=
  ⟨rfl, rfl⟩

/-- Claim C10: with the OpenAI provider selected and no credential, the
hook-optimizer degraded response echoes the input: `improved_hook` is the
stripped original hook, `improved_score`/`improved_level` equal the
heuristic score/level of that original hook, and `variants` is empty. -/
theorem claim_C10_hook_degraded (defaultLang : String)
    (parse : String → Option JsonVal) (net : Option String)
    (req : HookOptimizerRequest) :
    (hook_optimizer ⟨"openai", none⟩ defaultLang parse net req).1 =
      { original_hook := stringStrip req.hook
      , original_score := (_evaluate_scroll_stop (stringStrip req.hook) req.platform).1
      , original_level := _scroll_level (_evaluate_scroll_stop (stringStrip req.hook) req.platform).1
      , improved_hook := stringStrip req.hook
      , improved_score := (_evaluate_scroll_stop (stringStrip req.hook) req.platform).1
      , improved_level := _scroll_level (_evaluate_scroll_stop (stringStrip req.hook) req.platform).1
      , variants := []
      , explanation := "AI.D está en modo sin modelo avanzado. Usa la heurística básica de stop scroll."
      , recommended_format := "Post estático"
      , suggested_keyword := "SYSTEM" } := rfl

end AidCore
